import Mathlib

/-!
Shallow embedding of the FluffySurvival state-synchronization core:
the server room (`src/server/src/rooms/GameRoom.js`), its schema
(`GameState.js`: `Player`, `WorldObject`, `GameState`), and the client
reconciliation layer (`NetworkManager.processState`).

JavaScript numbers are modelled as real numbers; `Math.sqrt` as
`Real.sqrt`, `Math.atan2` as the argument of a complex number, and the
JS `%` operator (truncated remainder) as `jsMod`.  The Colyseus
`MapSchema` string-keyed maps are modelled as association lists.
-/

namespace FluffySurvival

/-- Constant `MOVE_SPEED = 5` from GameRoom.js. -/
def MOVE_SPEED : ℝ := 5

/-- Constant `WORLD_SIZE = 50` from GameRoom.js. -/
def WORLD_SIZE : ℝ := 50

/-- Constant `TICK_RATE = 1000 / 60` from GameRoom.js. -/
noncomputable def TICK_RATE : ℝ := 1000 / 60

/-- Value `deltaTime = TICK_RATE / 1000` computed in `GameRoom.update`. -/
noncomputable def deltaTime : ℝ := TICK_RATE / 1000

/-- Constant `dayLength = 480` from `GameRoom.update`. -/
def dayLength : ℝ := 480

/-- The `Player` schema of GameState.js (constructor defaults shown). -/
structure Player where
  id : String := ""
  name : String := ""
  x : ℝ := 0
  y : ℝ := 0
  z : ℝ := 0
  rotation : ℝ := 0
  state : String := "idle"
  velocityX : ℝ := 0
  velocityZ : ℝ := 0
  health : ℝ := 100
  hunger : ℝ := 100
  sanity : ℝ := 100

/-- A fresh `new Player()` with the constructor defaults of GameState.js. -/
def newPlayer : Player := {}

/-- The `WorldObject` schema of GameState.js. -/
structure WorldObject where
  id : String := ""
  type : String := ""
  x : ℝ := 0
  y : ℝ := 0
  z : ℝ := 0
  rotation : ℝ := 0
  interactable : Bool := true

/-- The `GameState` schema of GameState.js; `MapSchema` maps are
association lists keyed by session id / object id. -/
structure GameState where
  players : List (String × Player) := []
  worldObjects : List (String × WorldObject) := []
  worldTime : ℝ := 0
  dayPhase : String := "day"

/-- Modelled from the library function `Math.atan2(y, x)`: the angle of
the point `(x, y)`, i.e. the argument of the complex number `x + y*I`
(zero at the origin, matching `Math.atan2(0, 0) = 0`). -/
noncomputable def atan2 (y x : ℝ) : ℝ := Complex.arg { re := x, im := y }

/-- The body of the `'move'` message handler applied to the sender's
Player (GameRoom.js lines 22-36): normalize `(dirX, dirZ)`; when the
magnitude is positive set velocity, state `'walking'` and rotation,
otherwise change nothing. -/
noncomputable def movePlayer (dirX dirZ : ℝ) (p : Player) : Player :=
  let length := Real.sqrt (dirX * dirX + dirZ * dirZ)
  if length > 0 then
    { p with
      velocityX := dirX / length * MOVE_SPEED
      velocityZ := dirZ / length * MOVE_SPEED
      state := "walking"
      rotation := atan2 dirX dirZ }
  else
    p

/-- The body of the `'stop'` message handler applied to the sender's
Player (GameRoom.js lines 39-46). -/
def stopPlayer (p : Player) : Player :=
  { p with velocityX := 0, velocityZ := 0, state := "idle" }

/-- The immediate part of the `'action'` message handler applied to the
sender's Player (GameRoom.js line 52). -/
def actionPlayer (p : Player) : Player :=
  { p with state := "action" }

/-- The `setTimeout` callback scheduled by the `'action'` handler
(GameRoom.js lines 55-59): revert to `'idle'` only if the state is
still `'action'` (check-before-set). -/
def revertAction (p : Player) : Player :=
  if p.state = "action" then { p with state := "idle" } else p

/-- Mutation of the Player bound to `sessionId` inside the room's
players map (the handlers mutate `this.state.players.get(sessionId)`
in place). -/
def updatePlayers (sessionId : String) (f : Player → Player)
    (l : List (String × Player)) : List (String × Player) :=
  l.map fun kv => if kv.1 = sessionId then (kv.1, f kv.2) else kv

/-- The `'move'` message handler (GameRoom.js lines 21-37): look up the
sender's Player; if absent return with no mutation, else apply
`movePlayer` to it. -/
noncomputable def handleMove (sessionId : String) (dirX dirZ : ℝ)
    (st : GameState) : GameState :=
  match st.players.lookup sessionId with
  | none => st
  | some _ =>
    { st with players := updatePlayers sessionId (movePlayer dirX dirZ) st.players }

/-- The `'stop'` message handler (GameRoom.js lines 39-46). -/
def handleStop (sessionId : String) (st : GameState) : GameState :=
  match st.players.lookup sessionId with
  | none => st
  | some _ =>
    { st with players := updatePlayers sessionId stopPlayer st.players }

/-- The immediate part of the `'action'` message handler
(GameRoom.js lines 48-60); the delayed revert is `revertAction`. -/
def handleAction (sessionId : String) (st : GameState) : GameState :=
  match st.players.lookup sessionId with
  | none => st
  | some _ =>
    { st with players := updatePlayers sessionId actionPlayer st.players }

/-- The JS truncating integer part: `Math.trunc`, rounding toward 0. -/
noncomputable def jsTrunc (x : ℝ) : ℤ := if 0 ≤ x then ⌊x⌋ else ⌈x⌉

/-- The JS `%` operator on finite numbers with a nonzero divisor:
`a % b = a - b * trunc(a / b)`. -/
noncomputable def jsMod (a b : ℝ) : ℝ := a - b * jsTrunc (a / b)

/-- The per-Player part of `GameRoom.update` (lines 90-101): integrate
velocity over `deltaTime` and clamp both axes to
`[-WORLD_SIZE/2, WORLD_SIZE/2]`, but only when some velocity component
is nonzero. -/
noncomputable def tickPlayer (p : Player) : Player :=
  if p.velocityX ≠ 0 ∨ p.velocityZ ≠ 0 then
    let halfWorld := WORLD_SIZE / 2
    { p with
      x := max (-halfWorld) (min halfWorld (p.x + p.velocityX * deltaTime))
      z := max (-halfWorld) (min halfWorld (p.z + p.velocityZ * deltaTime)) }
  else
    p

/-- One tick, `GameRoom.update` (lines 87-117): move and clamp every Player,
advance `worldTime` by `deltaTime`, and recompute `dayPhase` from
`worldTime % dayLength`. -/
noncomputable def update (st : GameState) : GameState :=
  let players := st.players.map fun kv => (kv.1, tickPlayer kv.2)
  let worldTime := st.worldTime + deltaTime
  let timeOfDay := jsMod worldTime dayLength
  { st with
    players := players
    worldTime := worldTime
    dayPhase :=
      if timeOfDay < dayLength * 0.5 then "day"
      else if timeOfDay < dayLength * 0.625 then "dusk"
      else "night" }

/-- The pure phase function stated by the spec: with
`t = worldTime mod dayLength`, `t < 0.5*dayLength` is day,
`t < 0.625*dayLength` is dusk, else night. -/
noncomputable def phaseOfTime (worldTime : ℝ) : String :=
  let t := jsMod worldTime dayLength
  if t < dayLength * 0.5 then "day"
  else if t < dayLength * 0.625 then "dusk"
  else "night"

/-- The Player created by `GameRoom.onJoin` (lines 62-75); `r1`, `r2`
are the two `Math.random()` draws (in `[0, 1)`). -/
noncomputable def spawnPlayer (sessionId name : String) (r1 r2 : ℝ) : Player :=
  { newPlayer with
    id := sessionId
    name := name
    x := (r1 - 0.5) * WORLD_SIZE * 0.8
    z := (r2 - 0.5) * WORLD_SIZE * 0.8
    y := 0 }

/-- A client command affecting one Player's record, or the firing of a
pending `'action'` revert timer.  Handlers and the timer callback run
serialized on the room's single logical thread, so an execution is a
sequence of these events. -/
inductive Cmd where
  | move (dirX dirZ : ℝ)
  | stop
  | action
  | revertFire

/-- Apply one event to a Player (the per-Player bodies of the three
message handlers and of the `setTimeout` callback). -/
noncomputable def applyCmd : Cmd → Player → Player
  | .move dirX dirZ => movePlayer dirX dirZ
  | .stop => stopPlayer
  | .action => actionPlayer
  | .revertFire => revertAction

/-- Apply a sequence of events to a Player, in order. -/
noncomputable def applyCmds (cs : List Cmd) (p : Player) : Player :=
  cs.foldl (fun q c => applyCmd c q) p

/-- Arrivals emitted by one `NetworkManager.processState` call: the ids
of the snapshot that are not yet tracked (part_002 lines 465-485). -/
def stepArrivals (tracked snap : Finset String) : Finset String :=
  snap \ tracked

/-- After the arrival loop the tracked set has absorbed every snapshot
id (part_002: `this.trackedPlayers.add(sessionId)`). -/
def stepAdded (tracked snap : Finset String) : Finset String :=
  tracked ∪ snap

/-- Departures emitted by one `processState` call: tracked ids (after
the arrival loop) missing from the snapshot (part_002 lines 502-511). -/
def stepDepartures (tracked snap : Finset String) : Finset String :=
  stepAdded tracked snap \ snap

/-- The tracked set after one `processState` call: departures are
deleted from the tracked set. -/
def stepTracked (tracked snap : Finset String) : Finset String :=
  stepAdded tracked snap \ stepDepartures tracked snap

/-- The tracked set after processing a list of snapshots in order,
starting from `t0`. -/
def trackedAfter (t0 : Finset String) : List (Finset String) → Finset String
  | [] => t0
  | s :: ss => trackedAfter (stepTracked t0 s) ss

/-- The tracked set just before the `i`-th snapshot of `ss` is
processed. -/
def trackedBefore (t0 : Finset String) (ss : List (Finset String)) (i : ℕ) :
    Finset String :=
  trackedAfter t0 (ss.take i)

/-- The arrival events emitted while processing the `i`-th snapshot. -/
def arrivalsAt (t0 : Finset String) (ss : List (Finset String)) (i : ℕ) :
    Finset String :=
  stepArrivals (trackedBefore t0 ss i) (ss.getD i ∅)

/-- The departure events emitted while processing the `i`-th snapshot. -/
def departuresAt (t0 : Finset String) (ss : List (Finset String)) (i : ℕ) :
    Finset String :=
  stepDepartures (trackedBefore t0 ss i) (ss.getD i ∅)

/-- A one-Player room used to exercise the message handlers on concrete
input. -/
def demoState : GameState := { players := [("p1", newPlayer)] }

/-- A Player whose heading is 1 radian, used to exercise the `'move'`
handler on a zero direction vector. -/
def spinPlayer : Player := { newPlayer with rotation := 1 }

/-- A one-Player room whose Player faces 1 radian. -/
def spinState : GameState := { players := [("p1", spinPlayer)] }

/-! ### Association-list lemmas for the players map -/

theorem lookup_updatePlayers (sid : String) (f : Player → Player) :
    ∀ l : List (String × Player),
      (updatePlayers sid f l).lookup sid = (l.lookup sid).map f
  | [] => rfl
  | (k, v) :: t => by
    have ht := lookup_updatePlayers sid f t
    simp only [updatePlayers, List.map_cons] at ht ⊢
    by_cases hk : k = sid
    · subst hk
      simp
    · have hbeq : (sid == k) = false := beq_false_of_ne (Ne.symm hk)
      simp only [hk, if_false, List.lookup_cons, hbeq]
      exact ht

theorem updatePlayers_eq_self (sid : String) (f : Player → Player)
    (hf : ∀ v, f v = v) : ∀ l, updatePlayers sid f l = l := by
  intro l
  induction l with
  | nil => rfl
  | cons kv t ih =>
    obtain ⟨k, v⟩ := kv
    simp only [updatePlayers, List.map_cons] at ih ⊢
    refine congrArg₂ (· :: ·) ?_ ih
    by_cases hk : k = sid
    · simp [hk, hf]
    · simp [hk]

theorem updatePlayers_updatePlayers (sid : String) (f g : Player → Player)
    (l : List (String × Player)) :
    updatePlayers sid f (updatePlayers sid g l)
      = updatePlayers sid (fun v => f (g v)) l := by
  induction l with
  | nil => rfl
  | cons kv t ih =>
    obtain ⟨k, v⟩ := kv
    simp only [updatePlayers, List.map_cons] at ih ⊢
    refine congrArg₂ (· :: ·) ?_ ih
    by_cases hk : k = sid
    · simp [hk]
    · simp [hk]

/-! ### Per-Player handler lemmas -/

theorem movePlayer_zero_zero (p : Player) : movePlayer 0 0 p = p := by
  simp [movePlayer, Real.sqrt_zero]

theorem stopPlayer_stopPlayer (p : Player) :
    stopPlayer (stopPlayer p) = stopPlayer p := rfl

theorem movePlayer_of_pos {dirX dirZ : ℝ} (p : Player)
    (h : 0 < Real.sqrt (dirX * dirX + dirZ * dirZ)) :
    movePlayer dirX dirZ p =
      { p with
        velocityX := dirX / Real.sqrt (dirX * dirX + dirZ * dirZ) * MOVE_SPEED
        velocityZ := dirZ / Real.sqrt (dirX * dirX + dirZ * dirZ) * MOVE_SPEED
        state := "walking"
        rotation := atan2 dirX dirZ } := by
  simp only [movePlayer]
  rw [if_pos h]

theorem movePlayer_of_zero {dirX dirZ : ℝ} (p : Player)
    (h : Real.sqrt (dirX * dirX + dirZ * dirZ) = 0) :
    movePlayer dirX dirZ p = p := by
  simp only [movePlayer]
  rw [if_neg]
  rw [h]
  exact lt_irrefl 0

theorem handleMove_of_some {sid : String} {dirX dirZ : ℝ} {st : GameState}
    {p : Player} (hp : st.players.lookup sid = some p) :
    handleMove sid dirX dirZ st =
      { st with players := updatePlayers sid (movePlayer dirX dirZ) st.players } := by
  simp [handleMove, hp]

theorem handleStop_of_some {sid : String} {st : GameState}
    {p : Player} (hp : st.players.lookup sid = some p) :
    handleStop sid st =
      { st with players := updatePlayers sid stopPlayer st.players } := by
  simp [handleStop, hp]

/-! ### Claim theorems: message handling -/

/-- C7: a `'move'`, `'stop'` or `'action'` message from a client whose
sessionId has no Player in the players map leaves the whole room state
(players, world objects, worldTime, dayPhase) unchanged; the handlers
are total, so no error halts the room. -/
theorem unknown_sender_commands_no_mutation
    (sid : String) (dirX dirZ : ℝ) (st : GameState)
    (h : st.players.lookup sid = none) :
    handleMove sid dirX dirZ st = st
      ∧ handleStop sid st = st
      ∧ handleAction sid st = st := by
  refine ⟨?_, ?_, ?_⟩ <;> simp [handleMove, handleStop, handleAction, h]

/-- Witness for C7 at the empty room and sessionId `"p1"`. -/
theorem unknown_sender_commands_no_mutation_witness :
    handleMove "p1" 1 0 { } = ({ } : GameState)
      ∧ handleStop "p1" { } = ({ } : GameState)
      ∧ handleAction "p1" { } = ({ } : GameState) :=
  unknown_sender_commands_no_mutation "p1" 1 0 { } rfl

/-- C10: a `'move'` message whose payload is the zero vector is a
complete no-op: the handler returns the room state unchanged (for any
sender, existing Player or not), and the per-Player move body fixes
every Player, so position, velocity, rotation and state are untouched
and the state does not become `'walking'`. -/
theorem move_zero_vector_noop (sid : String) (st : GameState) (p : Player) :
    handleMove sid 0 0 st = st ∧ movePlayer 0 0 p = p := by
  constructor
  · cases hl : st.players.lookup sid with
    | none => simp [handleMove, hl]
    | some q =>
      simp [handleMove, hl, updatePlayers_eq_self sid _ movePlayer_zero_zero]
  · exact movePlayer_zero_zero p

/-- C8: the `'stop'` handler zeroes the velocity and sets state
`'idle'`, and it is idempotent: a second consecutive `'stop'` produces
exactly the same room state. -/
theorem stop_idempotent (sid : String) (st : GameState) (p : Player)
    (hp : st.players.lookup sid = some p) :
    (handleStop sid st).players.lookup sid = some (stopPlayer p)
      ∧ (stopPlayer p).velocityX = 0
      ∧ (stopPlayer p).velocityZ = 0
      ∧ (stopPlayer p).state = "idle"
      ∧ handleStop sid (handleStop sid st) = handleStop sid st := by
  have h1 := handleStop_of_some hp
  have h2 : (handleStop sid st).players.lookup sid = some (stopPlayer p) := by
    rw [h1]
    show (updatePlayers sid stopPlayer st.players).lookup sid = _
    rw [lookup_updatePlayers, hp, Option.map_some']
  refine ⟨h2, rfl, rfl, rfl, ?_⟩
  have h3 := handleStop_of_some h2
  rw [h3, h1]
  show ({ st with players := updatePlayers sid stopPlayer (updatePlayers sid stopPlayer st.players) } : GameState) = _
  rw [updatePlayers_updatePlayers]
  rfl

/-- Witness for C8 at a concrete one-Player room. -/
theorem stop_idempotent_witness :
    (handleStop "p1" demoState).players.lookup "p1" = some (stopPlayer newPlayer)
      ∧ (stopPlayer newPlayer).velocityX = 0
      ∧ (stopPlayer newPlayer).velocityZ = 0
      ∧ (stopPlayer newPlayer).state = "idle"
      ∧ handleStop "p1" (handleStop "p1" demoState) = handleStop "p1" demoState :=
  stop_idempotent "p1" demoState newPlayer (by simp [demoState])

/-- C2: handling a `'move'` whose direction has positive magnitude for
an existing Player sets the velocity to the normalized direction times
`MOVE_SPEED`, so the resulting velocity magnitude is exactly
`MOVE_SPEED = 5`. -/
theorem move_velocity_magnitude (sid : String) (dirX dirZ : ℝ)
    (st : GameState) (p : Player)
    (hp : st.players.lookup sid = some p)
    (hm : 0 < Real.sqrt (dirX * dirX + dirZ * dirZ)) :
    (handleMove sid dirX dirZ st).players.lookup sid = some (movePlayer dirX dirZ p)
      ∧ (movePlayer dirX dirZ p).velocityX
          = dirX / Real.sqrt (dirX * dirX + dirZ * dirZ) * MOVE_SPEED
      ∧ (movePlayer dirX dirZ p).velocityZ
          = dirZ / Real.sqrt (dirX * dirX + dirZ * dirZ) * MOVE_SPEED
      ∧ Real.sqrt ((movePlayer dirX dirZ p).velocityX ^ 2
          + (movePlayer dirX dirZ p).velocityZ ^ 2) = MOVE_SPEED := by
  have hmv := movePlayer_of_pos p hm
  have hlook : (handleMove sid dirX dirZ st).players.lookup sid
      = some (movePlayer dirX dirZ p) := by
    rw [handleMove_of_some hp]
    show (updatePlayers sid (movePlayer dirX dirZ) st.players).lookup sid = _
    rw [lookup_updatePlayers, hp, Option.map_some']
  have hs : 0 < dirX * dirX + dirZ * dirZ := Real.sqrt_pos.mp hm
  have hm2 : Real.sqrt (dirX * dirX + dirZ * dirZ) ^ 2 = dirX * dirX + dirZ * dirZ :=
    Real.sq_sqrt hs.le
  have hmne : Real.sqrt (dirX * dirX + dirZ * dirZ) ≠ 0 := ne_of_gt hm
  refine ⟨hlook, by rw [hmv], by rw [hmv], ?_⟩
  rw [hmv]
  have hv : (dirX / Real.sqrt (dirX * dirX + dirZ * dirZ) * MOVE_SPEED) ^ 2
      + (dirZ / Real.sqrt (dirX * dirX + dirZ * dirZ) * MOVE_SPEED) ^ 2
      = MOVE_SPEED ^ 2 := by
    have hr : (dirX / Real.sqrt (dirX * dirX + dirZ * dirZ) * MOVE_SPEED) ^ 2
        + (dirZ / Real.sqrt (dirX * dirX + dirZ * dirZ) * MOVE_SPEED) ^ 2
        = (dirX * dirX + dirZ * dirZ)
            / Real.sqrt (dirX * dirX + dirZ * dirZ) ^ 2 * MOVE_SPEED ^ 2 := by
      ring
    rw [hr, hm2, div_self (ne_of_gt hs), one_mul]
  show Real.sqrt _ = MOVE_SPEED
  rw [hv, Real.sqrt_sq (by norm_num [MOVE_SPEED] : (0:ℝ) ≤ MOVE_SPEED)]

/-- Witness for C2 at direction `(3, 4)` in a concrete one-Player room. -/
theorem move_velocity_magnitude_witness :
    (handleMove "p1" 3 4 demoState).players.lookup "p1" = some (movePlayer 3 4 newPlayer)
      ∧ (movePlayer 3 4 newPlayer).velocityX
          = 3 / Real.sqrt (3 * 3 + 4 * 4) * MOVE_SPEED
      ∧ (movePlayer 3 4 newPlayer).velocityZ
          = 4 / Real.sqrt (3 * 3 + 4 * 4) * MOVE_SPEED
      ∧ Real.sqrt ((movePlayer 3 4 newPlayer).velocityX ^ 2
          + (movePlayer 3 4 newPlayer).velocityZ ^ 2) = MOVE_SPEED :=
  move_velocity_magnitude "p1" 3 4 demoState newPlayer (by simp [demoState])
    (Real.sqrt_pos.mpr (by norm_num))

/-- C3 counterexample: handling `'move'` with the zero vector for an
existing Player whose rotation is 1 leaves the rotation at 1, which
differs from `atan2(0, 0) = 0`; so the rotation is not recomputed when
the magnitude is zero. -/
theorem move_rotation_zero_vector_counterexample :
    (handleMove "p1" 0 0 spinState).players.lookup "p1" = some spinPlayer
      ∧ spinPlayer.rotation ≠ atan2 0 0 := by
  constructor
  · have h0 : spinState.players.lookup "p1" = some spinPlayer := by simp [spinState]
    rw [handleMove_of_some h0]
    show (updatePlayers "p1" (movePlayer 0 0) spinState.players).lookup "p1" = _
    rw [lookup_updatePlayers, h0, Option.map_some', movePlayer_zero_zero]
  · have h1 : atan2 0 0 = 0 := by
      show Complex.arg { re := 0, im := 0 } = 0
      have hz : ({ re := 0, im := 0 } : ℂ) = 0 := rfl
      rw [hz, Complex.arg_zero]
    rw [h1]
    show (1:ℝ) ≠ 0
    norm_num

/-- C3 amended: handling `'move'` for an existing Player sets the
rotation to `atan2(dirX, dirZ)` whenever the direction's magnitude is
positive; when the magnitude is zero the rotation (like the rest of
the Player) is left unchanged. -/
theorem move_rotation_amended (sid : String) (dirX dirZ : ℝ)
    (st : GameState) (p : Player)
    (hp : st.players.lookup sid = some p) :
    (handleMove sid dirX dirZ st).players.lookup sid = some (movePlayer dirX dirZ p)
      ∧ (0 < Real.sqrt (dirX * dirX + dirZ * dirZ) →
          (movePlayer dirX dirZ p).rotation = atan2 dirX dirZ)
      ∧ (Real.sqrt (dirX * dirX + dirZ * dirZ) = 0 →
          (movePlayer dirX dirZ p).rotation = p.rotation) := by
  refine ⟨?_, fun h => by rw [movePlayer_of_pos p h],
    fun h => by rw [movePlayer_of_zero p h]⟩
  rw [handleMove_of_some hp]
  show (updatePlayers sid (movePlayer dirX dirZ) st.players).lookup sid = _
  rw [lookup_updatePlayers, hp, Option.map_some']

/-- Witness for the amended C3 at direction `(3, 4)`. -/
theorem move_rotation_amended_witness :
    (movePlayer 3 4 newPlayer).rotation = atan2 3 4 :=
  (move_rotation_amended "p1" 3 4 demoState newPlayer (by simp [demoState])).2.1
    (Real.sqrt_pos.mpr (by norm_num))

/-- C4 counterexample: handling `'move'` with the zero vector for an
existing idle Player leaves the state `'idle'`, not `'walking'`. -/
theorem move_state_zero_vector_counterexample :
    (handleMove "p1" 0 0 demoState).players.lookup "p1" = some newPlayer
      ∧ newPlayer.state ≠ "walking" := by
  constructor
  · have h0 : demoState.players.lookup "p1" = some newPlayer := by simp [demoState]
    rw [handleMove_of_some h0]
    show (updatePlayers "p1" (movePlayer 0 0) demoState.players).lookup "p1" = _
    rw [lookup_updatePlayers, h0, Option.map_some', movePlayer_zero_zero]
  · show "idle" ≠ "walking"
    decide

/-- C4 amended: handling `'move'` for an existing Player sets the state
to `'walking'` whenever the direction's magnitude is positive; a
zero-magnitude `'move'` leaves the state unchanged. -/
theorem move_state_amended (sid : String) (dirX dirZ : ℝ)
    (st : GameState) (p : Player)
    (hp : st.players.lookup sid = some p) :
    (handleMove sid dirX dirZ st).players.lookup sid = some (movePlayer dirX dirZ p)
      ∧ (0 < Real.sqrt (dirX * dirX + dirZ * dirZ) →
          (movePlayer dirX dirZ p).state = "walking")
      ∧ (Real.sqrt (dirX * dirX + dirZ * dirZ) = 0 →
          (movePlayer dirX dirZ p).state = p.state) := by
  refine ⟨?_, fun h => by rw [movePlayer_of_pos p h],
    fun h => by rw [movePlayer_of_zero p h]⟩
  rw [handleMove_of_some hp]
  show (updatePlayers sid (movePlayer dirX dirZ) st.players).lookup sid = _
  rw [lookup_updatePlayers, hp, Option.map_some']

/-- Witness for the amended C4 at direction `(3, 4)`. -/
theorem move_state_amended_witness :
    (movePlayer 3 4 newPlayer).state = "walking" :=
  (move_state_amended "p1" 3 4 demoState newPlayer (by simp [demoState])).2.1
    (Real.sqrt_pos.mpr (by norm_num))

/-! ### Claim theorems: simulation tick -/

/-- C5: after every tick the stored `dayPhase` is exactly the pure
phase function of the new `worldTime`: with
`t = worldTime mod dayLength` and `dayLength = 480`, the phase is
`'day'` for `t < 0.5*dayLength`, `'dusk'` for
`0.5*dayLength ≤ t < 0.625*dayLength`, and `'night'` otherwise. -/
theorem tick_dayPhase_pure_function (st : GameState) :
    (update st).dayPhase = phaseOfTime (update st).worldTime := rfl

theorem clamp_abs_le (t : ℝ) :
    |max (-(WORLD_SIZE / 2)) (min (WORLD_SIZE / 2) t)| ≤ WORLD_SIZE / 2 := by
  rw [abs_le]
  exact ⟨le_max_left _ _, max_le (by norm_num [WORLD_SIZE]) (min_le_left _ _)⟩

theorem tickPlayer_bounds (p : Player)
    (hx : |p.x| ≤ WORLD_SIZE / 2) (hz : |p.z| ≤ WORLD_SIZE / 2) :
    |(tickPlayer p).x| ≤ WORLD_SIZE / 2 ∧ |(tickPlayer p).z| ≤ WORLD_SIZE / 2 := by
  unfold tickPlayer
  split
  · exact ⟨clamp_abs_le _, clamp_abs_le _⟩
  · exact ⟨hx, hz⟩

/-- C1: the tick's movement-and-clamp update keeps every Player whose
position satisfies `|x| ≤ WORLD_SIZE/2` and `|z| ≤ WORLD_SIZE/2`
inside those bounds, and the spawn position assigned at join (with
`Math.random()` draws in `[0, 1)`) is inside the bounds as well, so
every reachable Player position is in bounds after every tick. -/
theorem player_positions_in_bounds
    (st : GameState) (sid name : String) (r1 r2 : ℝ)
    (hin : ∀ kv ∈ st.players, |kv.2.x| ≤ WORLD_SIZE / 2 ∧ |kv.2.z| ≤ WORLD_SIZE / 2)
    (hr1 : 0 ≤ r1) (hr1' : r1 < 1) (hr2 : 0 ≤ r2) (hr2' : r2 < 1) :
    (∀ kv ∈ (update st).players,
        |kv.2.x| ≤ WORLD_SIZE / 2 ∧ |kv.2.z| ≤ WORLD_SIZE / 2)
      ∧ |(spawnPlayer sid name r1 r2).x| ≤ WORLD_SIZE / 2
      ∧ |(spawnPlayer sid name r1 r2).z| ≤ WORLD_SIZE / 2 := by
  refine ⟨?_, ?_, ?_⟩
  · intro kv hkv
    have hpl : (update st).players
        = st.players.map fun kv => (kv.1, tickPlayer kv.2) := rfl
    rw [hpl] at hkv
    rcases List.mem_map.mp hkv with ⟨kv0, hkv0, rfl⟩
    exact tickPlayer_bounds kv0.2 (hin kv0 hkv0).1 (hin kv0 hkv0).2
  · show |(r1 - 0.5) * WORLD_SIZE * 0.8| ≤ WORLD_SIZE / 2
    rw [abs_le]
    norm_num [WORLD_SIZE]
    constructor <;> nlinarith
  · show |(r2 - 0.5) * WORLD_SIZE * 0.8| ≤ WORLD_SIZE / 2
    rw [abs_le]
    norm_num [WORLD_SIZE]
    constructor <;> nlinarith

/-- Witness for C1 at a concrete one-Player room and spawn draws
`r1 = r2 = 1/2`. -/
theorem player_positions_in_bounds_witness :
    |(spawnPlayer "p2" "Bob" (1/2) (1/2)).x| ≤ WORLD_SIZE / 2 :=
  (player_positions_in_bounds demoState "p2" "Bob" (1/2) (1/2)
    (by
      intro kv hkv
      simp only [demoState, List.mem_singleton] at hkv
      subst hkv
      constructor <;>
        · show |(0:ℝ)| ≤ WORLD_SIZE / 2
          norm_num [WORLD_SIZE])
    (by norm_num) (by norm_num) (by norm_num) (by norm_num)).2.1

/-! ### Claim theorems: action revert timer -/

/-- C6: the `'action'` handler sets the state to `'action'`
immediately, and the scheduled revert is check-before-set: when the
timer fires it moves the state to `'idle'` only if the state is still
`'action'`, so for every interleaving of commands run between the
`'action'` and the timer firing, a stale revert never overwrites a
state that a later command changed away from `'action'` (in
particular `'walking'` set by a later `'move'` survives). -/
theorem action_revert_check_before_set (p : Player) (cs : List Cmd)
    (h : (applyCmds cs (actionPlayer p)).state ≠ "action") :
    (actionPlayer p).state = "action"
      ∧ (revertAction (actionPlayer p)).state = "idle"
      ∧ revertAction (applyCmds cs (actionPlayer p)) = applyCmds cs (actionPlayer p) := by
  refine ⟨rfl, rfl, ?_⟩
  simp [revertAction, h]

/-- Witness for C6: an `'action'` followed by a `'move'` with direction
`(3, 4)`; when the revert timer fires, the walking Player is left
untouched. -/
theorem action_revert_check_before_set_witness :
    revertAction (applyCmds [Cmd.move 3 4] (actionPlayer newPlayer))
      = applyCmds [Cmd.move 3 4] (actionPlayer newPlayer) :=
  (action_revert_check_before_set newPlayer [Cmd.move 3 4] (by
    have hpos : (0:ℝ) < Real.sqrt (3 * 3 + 4 * 4) := Real.sqrt_pos.mpr (by norm_num)
    show (movePlayer 3 4 (actionPlayer newPlayer)).state ≠ "action"
    rw [movePlayer_of_pos _ hpos]
    decide)).2.2

/-! ### Claim theorems: client reconciliation -/

theorem stepTracked_eq (tracked snap : Finset String) :
    stepTracked tracked snap = snap := by
  ext a
  simp only [stepTracked, stepAdded, stepDepartures, Finset.mem_sdiff,
    Finset.mem_union, not_and, not_not]
  tauto

theorem trackedAfter_append (t0 : Finset String) (l1 l2 : List (Finset String)) :
    trackedAfter t0 (l1 ++ l2) = trackedAfter (trackedAfter t0 l1) l2 := by
  induction l1 generalizing t0 with
  | nil => rfl
  | cons s t ih =>
    rw [List.cons_append]
    show trackedAfter (stepTracked t0 s) (t ++ l2) = _
    rw [ih]
    rfl

theorem trackedBefore_succ (t0 : Finset String) (ss : List (Finset String))
    (i : ℕ) (h : i < ss.length) :
    trackedBefore t0 ss (i + 1) = ss.getD i ∅ := by
  unfold trackedBefore
  rw [← List.take_concat_get ss i h, List.concat_eq_append, trackedAfter_append,
    List.getD_eq_getElem ss ∅ h]
  show stepTracked (trackedAfter t0 (ss.take i)) _ = _
  rw [stepTracked_eq]

theorem mem_arrivalsAt (t0 : Finset String) (ss : List (Finset String))
    (i : ℕ) (a : String) :
    a ∈ arrivalsAt t0 ss i ↔ a ∈ ss.getD i ∅ ∧ a ∉ trackedBefore t0 ss i := by
  simp [arrivalsAt, stepArrivals, Finset.mem_sdiff]

theorem mem_departuresAt (t0 : Finset String) (ss : List (Finset String))
    (i : ℕ) (a : String) :
    a ∈ departuresAt t0 ss i ↔ a ∈ trackedBefore t0 ss i ∧ a ∉ ss.getD i ∅ := by
  simp only [departuresAt, stepDepartures, stepAdded, Finset.mem_sdiff,
    Finset.mem_union]
  tauto

/-- C9: in the client reconciliation layer, processing a sequence of
snapshots emits the arrival event for an id exactly once per contiguous
presence interval — if the id is untracked before snapshot `i` and
present in the `N` consecutive snapshots starting at `i`, the arrival
fires at snapshot `i` and at none of the later ones — and the
departure event exactly once per absence interval: when a tracked id
goes missing for `M` consecutive snapshots from snapshot `j` on, the
departure fires at snapshot `j` and at none of the later ones. -/
theorem arrival_departure_once_per_interval
    (t0 : Finset String) (ss : List (Finset String)) (a : String) (i N : ℕ)
    (hN : 0 < N) (hlen : i + N ≤ ss.length)
    (habsent : a ∉ trackedBefore t0 ss i)
    (hpresent : ∀ j, i ≤ j → j < i + N → a ∈ ss.getD j ∅) :
    (a ∈ arrivalsAt t0 ss i
      ∧ ∀ k, 0 < k → k < N → a ∉ arrivalsAt t0 ss (i + k))
      ∧ ∀ j M : ℕ, j + M ≤ ss.length → 0 < M →
          a ∈ trackedBefore t0 ss j →
          (∀ k, k < M → a ∉ ss.getD (j + k) ∅) →
          a ∈ departuresAt t0 ss j
            ∧ ∀ k, 0 < k → k < M → a ∉ departuresAt t0 ss (j + k) := by
  refine ⟨⟨?_, ?_⟩, ?_⟩
  · exact (mem_arrivalsAt t0 ss i a).mpr
      ⟨hpresent i le_rfl (by omega), habsent⟩
  · intro k hk hkN
    obtain ⟨k', rfl⟩ : ∃ k', k = k' + 1 := ⟨k - 1, by omega⟩
    rw [mem_arrivalsAt]
    rintro ⟨hmem, habs2⟩
    apply habs2
    have hik : i + (k' + 1) = (i + k') + 1 := by omega
    rw [hik, trackedBefore_succ t0 ss (i + k') (by omega)]
    exact hpresent (i + k') (by omega) (by omega)
  · intro j M hjM hM htr habs
    refine ⟨(mem_departuresAt t0 ss j a).mpr ⟨htr, by simpa using habs 0 hM⟩, ?_⟩
    intro k hk hkM
    obtain ⟨k', rfl⟩ : ∃ k', k = k' + 1 := ⟨k - 1, by omega⟩
    rw [mem_departuresAt]
    rintro ⟨htr2, _⟩
    have hjk : trackedBefore t0 ss (j + (k' + 1)) = ss.getD (j + k') ∅ := by
      have h1 : j + (k' + 1) = (j + k') + 1 := by omega
      rw [h1]
      exact trackedBefore_succ t0 ss (j + k') (by omega)
    rw [hjk] at htr2
    exact habs k' (by omega) htr2

/-- Witness for C9: id `"a"` appears in snapshots 0 and 1 after being
untracked; the arrival event fires at snapshot 0. -/
theorem arrival_departure_once_per_interval_witness :
    "a" ∈ arrivalsAt ∅ [{"a"}, {"a"}, ∅] 0 :=
  (arrival_departure_once_per_interval ∅ [{"a"}, {"a"}, ∅] "a" 0 2
    (by norm_num) (by simp) (by decide)
    (by
      intro j h0 hj
      interval_cases j <;> decide)).1.1

end FluffySurvival
